import Mathlib

/-!
# Verification of the conversational intake core of the DTC assessment tool

A shallow embedding, in Lean 4, of the conversational intake state machine
of the assessment tool: the timebox controller (`modules/timebox.py`), the
judgment engine (`modules/judgment_engine.py`), the intake state machine
(`modules/chat_intake.py`), the per-state extraction handlers
(`modules/chat_llm_v2.py`), the context-handoff builder
(`modules/context_handoff.py`), and the relevant session-level glue from
`app.py`.  Python dicts with a fixed key set are modelled as Lean
structures, Python strings as `String`, Python `None`/truthiness as
`Option`/emptiness checks, and Python's substring operator `in` as an
executable character-list scan.  Timestamps and message ids (wall-clock
and uuid effects) carry no logic in the source and are omitted from the
embedded records.

Theorems at the end settle the frozen claims about this core.
-/

namespace DTC

/-! ## String helpers: Python `str.lower`, `in`, `strip`, slicing -/

/-- Python `needle in haystack` on lists of characters: `charsPrefixAt n h`
is true when `n` is a prefix of `h`. -/
def charsPrefixAt : List Char → List Char → Bool
  | [], _ => true
  | _ :: _, [] => false
  | a :: as, b :: bs => a == b && charsPrefixAt as bs

/-- Python `needle in haystack`: some suffix of the haystack starts with the
needle. -/
def charsContains (needle : List Char) : List Char → Bool
  | [] => charsPrefixAt needle []
  | b :: bs => charsPrefixAt needle (b :: bs) || charsContains needle bs

/-- Python `needle in haystack` on strings. -/
def strContains (haystack needle : String) : Bool :=
  charsContains needle.data haystack.data

/-- Python `s.lower()` (ASCII case folding, which is all the source
uses), as a structural map over the character list so that it reduces in
the kernel. -/
def lowerStr (s : String) : String :=
  String.mk (s.data.map Char.toLower)

/-- Python truthiness of an optional string: `None` and `""` are falsy. -/
def optTruthy : Option String → Bool
  | none => false
  | some s => !s.isEmpty

/-- Python `s.strip()` restricted to ASCII whitespace. -/
def stripStr (s : String) : String :=
  String.mk ((s.data.dropWhile Char.isWhitespace).reverse.dropWhile
    Char.isWhitespace).reverse

/-- Python `s[:n]` slicing. -/
def takeStr (s : String) (n : Nat) : String :=
  String.mk (s.data.take n)

/-- Python `" ".join(xs)`. -/
def joinSpace (xs : List String) : String :=
  String.intercalate " " xs

/-! ## Shared data model (`modules/judgment_engine.py`, PRD Part 5.2) -/

/-- `ConfidenceLevel = Literal["high", "med", "low"]`. -/
inductive Conf
  | low
  | med
  | high
deriving DecidableEq, Repr

/-- Rank of a confidence level, for the monotonicity claims. -/
def confRank : Conf → Nat
  | .low => 0
  | .med => 1
  | .high => 2

/-- Provenance strings used across the source for the `source` key of a
judgment dict. -/
inductive Source
  | asked
  | inferred
  | user_edit
  | keyword_match
  | llm_extracted
  | keyword_override
  | user_direct
  | unknown
deriving DecidableEq, Repr

/-- `JudgmentValue`: a `{value, confidence, source}` dict (plus the optional
`reasoning` key which the v2 extraction handlers add). -/
structure JValue where
  value : Option String
  confidence : Conf
  source : Source
  reasoning : Option String := none
deriving DecidableEq, Repr

/-- The `timeline` entry of the intake packet: `{bucket, raw, confidence,
source}`. -/
structure TimelineValue where
  bucket : Option String
  raw : Option String
  confidence : Conf
  source : Source
deriving DecidableEq, Repr

/-- The `organization_size` entry: `{bucket, raw, confidence, source}`. -/
structure OrgSizeValue where
  bucket : Option String
  raw : Option String
  confidence : Conf
  source : Source
deriving DecidableEq, Repr

/-- The `integration_surface` entry: `{systems, summary, confidence,
source}`. -/
structure IntegrationValue where
  systems : List String
  summary : Option String
  confidence : Conf
  source : Source
deriving DecidableEq, Repr

/-- The `risk_posture` entry: `{level, worst_case, confidence, source}`. -/
structure RiskValue where
  level : Option String
  worst_case : Option String
  confidence : Conf
  source : Source
deriving DecidableEq, Repr

/-- `IntakePacket` (PRD Part 5.2): the fixed field set of the judgment
store, one typed entry per Python dict key of `init_intake_packet`. -/
structure IntakePacket where
  industry : JValue
  use_case_intent : JValue
  opportunity_shape : JValue
  jurisdiction : JValue
  timeline : TimelineValue
  organization_size : OrgSizeValue
  stakeholder_reality : JValue
  integration_surface : IntegrationValue
  risk_posture : RiskValue
  boundaries : JValue
deriving DecidableEq, Repr

/-- `AssumptionStatus = Literal["assumed", "confirmed", "corrected",
"needs_revalidation"]`. -/
inductive AStatus
  | assumed
  | confirmed
  | corrected
  | needs_revalidation
deriving DecidableEq, Repr

/-- `Assumption` dict. -/
structure Assumption where
  id : String
  statement : String
  confidence : Conf
  impact : Conf
  needs_confirmation : Bool
  status : AStatus
deriving DecidableEq, Repr

/-- `init_intake_packet()`. -/
def init_intake_packet : IntakePacket where
  industry := ⟨none, .low, .inferred, none⟩
  use_case_intent := ⟨none, .low, .inferred, none⟩
  opportunity_shape := ⟨none, .low, .inferred, none⟩
  jurisdiction := ⟨none, .low, .inferred, none⟩
  timeline := ⟨none, none, .low, .inferred⟩
  organization_size := ⟨none, none, .low, .inferred⟩
  stakeholder_reality := ⟨none, .low, .inferred, none⟩
  integration_surface := ⟨[], none, .low, .inferred⟩
  risk_posture := ⟨none, none, .low, .inferred⟩
  boundaries := ⟨none, .low, .inferred, none⟩

/-! ## Timebox controller (`modules/timebox.py`) -/

/-- `TimeboxState` (the `started_at` / `last_turn_at` timestamps carry no
logic and are omitted). -/
structure TimeboxState where
  turns : Nat
  hard_questions : Nat
  fast_path_offered : Bool
  hard_stop_reached : Bool
  extension_turns : Nat
deriving DecidableEq, Repr

/-- The `config["timebox"]` settings dict. -/
structure TimeboxCfg where
  hard_cap_turns : Nat := 18
  hard_questions_max : Nat := 4
  default_turns : Nat := 10
deriving DecidableEq, Repr

/-- `config["timebox"].get("hard_cap_turns", 18)` with the `config and
"timebox" in config` guard. -/
def hardCapOf : Option TimeboxCfg → Nat
  | none => 18
  | some c => c.hard_cap_turns

/-- `config["timebox"].get("default_turns", 10)`. -/
def defaultTurnsOf : Option TimeboxCfg → Nat
  | none => 10
  | some c => c.default_turns

/-- `config["timebox"].get("hard_questions_max", 4)`. -/
def hardQuestionsMaxOf : Option TimeboxCfg → Nat
  | none => 4
  | some c => c.hard_questions_max

/-- `init_timebox()`. -/
def init_timebox : TimeboxState where
  turns := 0
  hard_questions := 0
  fast_path_offered := false
  hard_stop_reached := false
  extension_turns := 0

/-- `register_turn(timebox, is_hard_question, config)`. -/
def register_turn (timebox : TimeboxState) (is_hard_question : Bool)
    (config : Option TimeboxCfg) : TimeboxState :=
  let hard_cap := hardCapOf config
  let turns' := timebox.turns + 1
  let hq' := if is_hard_question then timebox.hard_questions + 1
             else timebox.hard_questions
  let hsr' := if turns' ≥ hard_cap && !timebox.hard_stop_reached then true
              else timebox.hard_stop_reached
  let ext' := if timebox.hard_stop_reached then timebox.extension_turns + 1
              else timebox.extension_turns
  { turns := turns', hard_questions := hq',
    fast_path_offered := timebox.fast_path_offered,
    hard_stop_reached := hsr', extension_turns := ext' }

/-- `should_offer_fast_path(timebox, config)`. -/
def should_offer_fast_path (timebox : TimeboxState)
    (config : Option TimeboxCfg) : Bool :=
  if timebox.fast_path_offered then false
  else if timebox.turns ≥ defaultTurnsOf config then true
  else if timebox.hard_questions ≥ hardQuestionsMaxOf config then true
  else false

/-- `mark_fast_path_offered(timebox)`. -/
def mark_fast_path_offered (timebox : TimeboxState) : TimeboxState :=
  { timebox with fast_path_offered := true }

/-- `reached_hard_stop(timebox, config)`. -/
def reached_hard_stop (timebox : TimeboxState)
    (config : Option TimeboxCfg) : Bool :=
  timebox.turns ≥ hardCapOf config

/-- `should_force_proceed(timebox)`. -/
def should_force_proceed (timebox : TimeboxState) : Bool :=
  if !timebox.hard_stop_reached then false
  else timebox.extension_turns ≥ 2

/-- The timebox states reachable from `init_timebox` by any sequence of
`register_turn` calls (any hard-question flags, any configs). -/
inductive ReachableTB : TimeboxState → Prop
  | init : ReachableTB init_timebox
  | step {t : TimeboxState} (hq : Bool) (cfg : Option TimeboxCfg) :
      ReachableTB t → ReachableTB (register_turn t hq cfg)

/-! ## Judgment engine keyword tables and extractors
(`modules/judgment_engine.py`) -/

/-- `INDUSTRY_KEYWORDS`, in dict insertion order. -/
def INDUSTRY_KEYWORDS : List (String × List String) :=
  [("healthcare", ["health", "medical", "hospital", "patient", "clinical",
      "pharma", "drug"]),
   ("finance", ["bank", "financial", "trading", "investment", "insurance",
      "fintech", "payment"]),
   ("manufacturing", ["manufactur", "factory", "production", "assembly",
      "industrial"]),
   ("retail", ["retail", "ecommerce", "e-commerce", "shop", "store",
      "consumer"]),
   ("technology", ["tech", "software", "saas", "platform", "app",
      "digital"]),
   ("energy", ["energy", "utility", "power", "electric", "oil", "gas",
      "renewable"]),
   ("logistics", ["logistics", "supply chain", "shipping", "transport",
      "warehouse"]),
   ("education", ["education", "learning", "school", "university",
      "training"]),
   ("government", ["government", "public sector", "federal", "municipal",
      "civic"]),
   ("agriculture", ["agriculture", "farming", "crop", "livestock", "agri"])]

/-- `OPPORTUNITY_KEYWORDS`, in dict insertion order. -/
def OPPORTUNITY_KEYWORDS : List (String × List String) :=
  [("revenue", ["revenue", "sales", "growth", "monetize", "profit",
      "income", "sell"]),
   ("cost", ["cost", "save", "efficiency", "reduce", "automate",
      "streamline", "cut"]),
   ("risk", ["risk", "compliance", "security", "protect", "prevent",
      "safety", "audit"]),
   ("transform", ["transform", "innovate", "disrupt", "reimagine",
      "new way", "change"])]

/-- `REGULATED_INDUSTRIES`. -/
def REGULATED_INDUSTRIES : List String :=
  ["healthcare", "finance", "government", "energy"]

/-- `extract_industry(text)`: unique keyword match is high confidence, an
ambiguous match returns the first industry with med confidence. -/
def extract_industry (text : String) : Option String × Conf :=
  let text_lower := lowerStr text
  let hits := INDUSTRY_KEYWORDS.filterMap fun p =>
    if p.2.any (fun kw => strContains text_lower kw) then some p.1 else none
  match hits with
  | [] => (none, .low)
  | [m] => (some m, .high)
  | m :: _ :: _ => (some m, .med)

/-- `extract_opportunity_shape(text)`: count keyword hits per shape; the
first shape attaining the maximal score wins (Python `max` over dict
iteration order); two or more hits give high confidence. -/
def extract_opportunity_shape (text : String) : Option String × Conf :=
  let text_lower := lowerStr text
  let scores := OPPORTUNITY_KEYWORDS.map fun p =>
    (p.1, (p.2.filter (fun kw => strContains text_lower kw)).length)
  let max_score : Nat := scores.foldl (fun a p => max a p.2) 0
  if max_score == 0 then (none, .low)
  else
    let winner := (scores.find? (fun p => p.2 == max_score)).map Prod.fst
    (winner, if max_score ≥ 2 then .high else .med)

/-- The jurisdiction keyword table local to `extract_jurisdiction`. -/
def JURISDICTION_KEYWORDS : List (String × List String) :=
  [("US", ["united states", "usa", "u.s.", "america", "federal"]),
   ("EU", ["europe", "european union", "eu", "gdpr"]),
   ("UK", ["united kingdom", "uk", "britain", "england"]),
   ("global", ["global", "worldwide", "international",
      "multi-jurisdictional"]),
   ("Canada", ["canada", "canadian"]),
   ("Australia", ["australia", "australian"]),
   ("Germany", ["germany", "german"]),
   ("Singapore", ["singapore"])]

/-- `extract_jurisdiction(text)`: first table entry with a keyword hit. -/
def extract_jurisdiction (text : String) : Option String × Conf :=
  let text_lower := lowerStr text
  match JURISDICTION_KEYWORDS.find? fun p =>
      p.2.any (fun kw => strContains text_lower kw) with
  | some p => (some p.1, .high)
  | none => (none, .low)

/-- `extract_timeline(text)` in the judgment engine (the coarse
`0-3mo`/`3-6mo`/`6-12mo`/`12mo+`/`exploratory` buckets). -/
def extract_timeline (text : String) : Option String × Option String × Conf :=
  let tl := lowerStr text
  if ["poc", "proof of concept", "1-3 month", "quick", "pilot"].any
      (fun x => strContains tl x) then
    (some "0-3mo", some "POC/Pilot", .high)
  else if ["3-6 month", "pilot project", "trial"].any
      (fun x => strContains tl x) then
    (some "3-6mo", some "Pilot", .high)
  else if ["6-12 month", "production", "deploy", "rollout"].any
      (fun x => strContains tl x) then
    (some "6-12mo", some "Production", .high)
  else if ["year", "long term", "scale", "enterprise"].any
      (fun x => strContains tl x) then
    (some "12mo+", some "Long-term", .med)
  else if ["exploring", "research", "investigate", "feasibility"].any
      (fun x => strContains tl x) then
    (some "exploratory", some "Exploratory", .med)
  else (none, none, .low)

/-- `extract_org_size(text)`. -/
def extract_org_size (text : String) : Option String × Option String × Conf :=
  let tl := lowerStr text
  if ["startup", "small team", "5 people", "10 people"].any
      (fun x => strContains tl x) then
    (some "1-50", some "Small/Startup", .med)
  else if ["mid-size", "medium", "growing", "100 people", "200 people"].any
      (fun x => strContains tl x) then
    (some "51-200", some "Mid-size", .med)
  else if ["large", "enterprise", "1000", "thousand", "corporation"].any
      (fun x => strContains tl x) then
    (some "1001-5000", some "Large", .med)
  else if ["fortune 500", "multinational", "global company", "10000"].any
      (fun x => strContains tl x) then
    (some "5000+", some "Enterprise", .med)
  else (none, none, .low)

/-- `infer_risk_posture(intake_packet)`: regulated industries default to
high risk, otherwise the use-case text decides, otherwise medium/low. -/
def infer_risk_posture (p : IntakePacket) : Option String × Conf :=
  let regulated := match p.industry.value with
    | some ind => optTruthy (some ind) &&
        REGULATED_INDUSTRIES.contains (lowerStr ind)
    | none => false
  if regulated then (some "high", .med)
  else
    match p.use_case_intent.value with
    | some uc =>
        if uc.isEmpty then (some "medium", .low)
        else
          let ucl := lowerStr uc
          if ["autonom", "decision", "approve", "critical"].any
              (fun x => strContains ucl x) then (some "high", .med)
          else if ["assist", "recommend", "suggest", "support"].any
              (fun x => strContains ucl x) then (some "low", .med)
          else (some "medium", .low)
    | none => (some "medium", .low)

/-- `is_regulated_domain(intake_packet)`. -/
def is_regulated_domain (p : IntakePacket) : Bool :=
  match p.industry.value with
  | some ind => optTruthy (some ind) &&
      REGULATED_INDUSTRIES.contains (lowerStr ind)
  | none => false

/-- The `(pattern, name)` table of `extract_systems` (all patterns are
literal strings, so `re.search` is a substring test). -/
def SYSTEM_PATTERNS : List (String × String) :=
  [("salesforce", "Salesforce"), ("sap", "SAP"), ("oracle", "Oracle"),
   ("workday", "Workday"), ("servicenow", "ServiceNow"), ("slack", "Slack"),
   ("jira", "Jira"), ("confluence", "Confluence"),
   ("sharepoint", "SharePoint"), ("dynamics", "Microsoft Dynamics"),
   ("hubspot", "HubSpot"), ("zendesk", "Zendesk"), ("erp", "ERP System"),
   ("crm", "CRM System"), ("database", "Database"),
   ("api", "API Integration")]

/-- `extract_systems(text)`. -/
def extract_systems (text : String) : List String :=
  let tl := lowerStr text
  SYSTEM_PATTERNS.foldl
    (fun acc p =>
      if strContains tl p.1 && !acc.contains p.2 then acc ++ [p.2] else acc)
    []

/-! ## Chat messages and the intake state enum (`modules/chat_intake.py`) -/

/-- Message roles. -/
inductive Role
  | system
  | user
  | assistant
deriving DecidableEq, Repr

/-- Conversation states (`State` literal in `chat_intake.py`). -/
inductive IState
  | S0_ENTRY
  | S1_INTENT
  | S2_OPPORTUNITY
  | S3_CONTEXT
  | S4_INTEGRATION
  | S4_RISK
  | S4_INTEGRATION_RISK
  | S5_ASSUMPTIONS_CHECK
  | S6_RUN_STEP0
  | S7_CONFIRM_TYPE
  | S8_RUN_STEP1_3
  | S9_EXPORTS
deriving DecidableEq, Repr

/-- User actions (`UserAction` literal). -/
inductive UAction
  | message
  | fast_path
  | confirm_proceed
  | fix_assumption
  | ask_question
  | confirm_type
  | start_over
deriving DecidableEq, Repr

/-- `ChatMessage` (the uuid message id and the wall-clock timestamp carry
no logic and are omitted; the metadata dict is likewise never read). -/
structure ChatMessage where
  role : Role
  content : String
  state : IState
deriving DecidableEq, Repr

/-- `create_message(role, content, state)`. -/
def create_message (role : Role) (content : String) (state : IState) :
    ChatMessage :=
  ⟨role, content, state⟩

/-! ## `update_judgments` (`modules/judgment_engine.py`)

The source is a single function with one `if not set: extract and set`
block per field, executed in order; each block is embedded as one setter
below and `update_judgments` is their composition, followed by the
dependency-ripple block, assumption generation, and the open-question
scan, exactly as in the source. -/

/-- CJ01: set `industry` from keywords if unset. -/
def uj_industry (user_text : String) (p : IntakePacket) : IntakePacket :=
  if optTruthy p.industry.value then p
  else
    match extract_industry user_text with
    | (some ind, conf) => { p with industry := ⟨some ind, conf, .inferred, none⟩ }
    | (none, _) => p

/-- CJ02: set `use_case_intent` from the first substantial (>20 char) user
message if unset. -/
def uj_use_case (chat_history : List ChatMessage) (p : IntakePacket) :
    IntakePacket :=
  if optTruthy p.use_case_intent.value then p
  else
    match chat_history.find? (fun m =>
        m.role == .user && m.content.length > 20) with
    | some m =>
        { p with use_case_intent :=
            ⟨some (takeStr m.content 500), .med, .inferred, none⟩ }
    | none => p

/-- CJ03: set `opportunity_shape` if unset. -/
def uj_opportunity (user_text : String) (p : IntakePacket) : IntakePacket :=
  if optTruthy p.opportunity_shape.value then p
  else
    match extract_opportunity_shape user_text with
    | (some opp, conf) =>
        { p with opportunity_shape := ⟨some opp, conf, .inferred, none⟩ }
    | (none, _) => p

/-- CJ04: set `jurisdiction` if unset. -/
def uj_jurisdiction (user_text : String) (p : IntakePacket) : IntakePacket :=
  if optTruthy p.jurisdiction.value then p
  else
    match extract_jurisdiction user_text with
    | (some jur, conf) =>
        { p with jurisdiction := ⟨some jur, conf, .inferred, none⟩ }
    | (none, _) => p

/-- CJ06: set `timeline` if its bucket is unset. -/
def uj_timeline (user_text : String) (p : IntakePacket) : IntakePacket :=
  if optTruthy p.timeline.bucket then p
  else
    match extract_timeline user_text with
    | (some bucket, raw, conf) =>
        { p with timeline := ⟨some bucket, raw, conf, .inferred⟩ }
    | (none, _, _) => p

/-- CJ07: set `organization_size` if its bucket is unset. -/
def uj_org_size (user_text : String) (p : IntakePacket) : IntakePacket :=
  if optTruthy p.organization_size.bucket then p
  else
    match extract_org_size user_text with
    | (some bucket, raw, conf) =>
        { p with organization_size := ⟨some bucket, raw, conf, .inferred⟩ }
    | (none, _, _) => p

/-- CJ08: set `integration_surface` if systems were detected and none are
recorded yet. -/
def uj_integration (user_text : String) (p : IntakePacket) : IntakePacket :=
  let systems := extract_systems user_text
  if !systems.isEmpty && p.integration_surface.systems.isEmpty then
    { p with integration_surface :=
        ⟨systems,
         some ("Integrates with: " ++ String.intercalate ", " systems),
         .med, .inferred⟩ }
  else p

/-- CJ09: set `risk_posture` (inferred from the packet) if its level is
unset. -/
def uj_risk (p : IntakePacket) : IntakePacket :=
  if optTruthy p.risk_posture.level then p
  else
    match infer_risk_posture p with
    | (some level, conf) =>
        { p with risk_posture := ⟨some level, none, conf, .inferred⟩ }
    | (none, _) => p

/-- `CORE_JUDGMENT_FIELDS` of the dependency-ripple block. -/
def CORE_JUDGMENT_FIELDS : List String :=
  ["industry", "use_case_intent", "jurisdiction", "opportunity_shape"]

/-- The dependency-ripple block: when `changed_field == "industry"`,
re-infer `risk_posture` (keeping `worst_case`) and mark every assumption
in the list whose statement mentions industry or risk as
`needs_revalidation`.  In the source this runs over the local
`assumptions` list, which is still empty at that point. -/
def uj_ripple (changed_field : Option String) (p : IntakePacket)
    (assumptions : List Assumption) : IntakePacket × List Assumption :=
  match changed_field with
  | some cf =>
      if CORE_JUDGMENT_FIELDS.contains cf && cf == "industry" then
        let (level, conf) := infer_risk_posture p
        let p' := { p with risk_posture :=
          ⟨level, p.risk_posture.worst_case, conf, .inferred⟩ }
        let asms' := assumptions.map fun a =>
          if strContains (lowerStr a.statement) "industry" ||
             strContains (lowerStr a.statement) "risk" then
            { a with status := .needs_revalidation }
          else a
        (p', asms')
      else (p, assumptions)
  | none => (p, assumptions)

/-- The truthy `value or bucket or level` lookup used by the assumption
generator, per packet field (dict entries missing a key yield `None`). -/
def fieldDisplayValue : List (String × (IntakePacket → Option String))
    → Unit := fun _ => ()

/-- One candidate `(key, displayed name, source, confidence, value)` tuple
per packet entry, in dict insertion order, for the assumption generator. -/
def assumptionCandidates (p : IntakePacket) :
    List (String × String × Source × Conf × Option String) :=
  [("industry", "Industry", p.industry.source, p.industry.confidence,
      p.industry.value),
   ("use_case_intent", "Use Case Intent", p.use_case_intent.source,
      p.use_case_intent.confidence, p.use_case_intent.value),
   ("opportunity_shape", "Opportunity Shape", p.opportunity_shape.source,
      p.opportunity_shape.confidence, p.opportunity_shape.value),
   ("jurisdiction", "Jurisdiction", p.jurisdiction.source,
      p.jurisdiction.confidence, p.jurisdiction.value),
   ("timeline", "Timeline", p.timeline.source, p.timeline.confidence,
      p.timeline.bucket),
   ("organization_size", "Organization Size", p.organization_size.source,
      p.organization_size.confidence, p.organization_size.bucket),
   ("stakeholder_reality", "Stakeholder Reality",
      p.stakeholder_reality.source, p.stakeholder_reality.confidence,
      p.stakeholder_reality.value),
   ("integration_surface", "Integration Surface",
      p.integration_surface.source, p.integration_surface.confidence,
      none),
   ("risk_posture", "Risk Posture", p.risk_posture.source,
      p.risk_posture.confidence, p.risk_posture.level),
   ("boundaries", "Boundaries", p.boundaries.source,
      p.boundaries.confidence, p.boundaries.value)]

/-- The assumption-generation loop: one assumption per inferred med/low
field with a truthy value, ids `A1`, `A2`, ... in packet order. -/
def genAssumptions (p : IntakePacket) : List Assumption :=
  let selected := (assumptionCandidates p).filterMap fun c =>
    match c with
    | (key, name, src, conf, val) =>
        match val with
        | some v =>
            if src == .inferred && !v.isEmpty &&
                (conf == .med || conf == .low) then
              some (key, name, conf, v)
            else none
        | none => none
  selected.enum.map fun c =>
    match c with
    | (n, (key, name, conf, v)) =>
        { id := "A" ++ toString (n + 1),
          statement := name ++ " is " ++ v,
          confidence := conf,
          impact := if key == "industry" || key == "jurisdiction" ||
              key == "use_case_intent" then Conf.high else Conf.med,
          needs_confirmation := conf == .low,
          status := .assumed }

/-- The open-question scan: blocker core judgments with no truthy value.
`CJ10` (confirmed agent type) reads a key the packet never holds, so it is
always open. -/
def openQuestionScan (p : IntakePacket) : List String :=
  (if optTruthy p.industry.value then [] else ["CJ01"]) ++
  (if optTruthy p.use_case_intent.value then [] else ["CJ02"]) ++
  (if optTruthy p.jurisdiction.value then [] else ["CJ04"]) ++
  ["CJ10"]

/-- `user_text`: the concatenation of all user-message contents. -/
def historyUserText (chat_history : List ChatMessage) : String :=
  joinSpace (chat_history.filterMap fun m =>
    if m.role == .user then some m.content else none)

/-- The eight sequential `if not set: extract and set` blocks of
`update_judgments`, composed in source order. -/
def uj_extract_chain (chat_history : List ChatMessage) (p : IntakePacket) :
    IntakePacket :=
  let user_text := historyUserText chat_history
  uj_risk (uj_integration user_text (uj_org_size user_text
    (uj_timeline user_text (uj_jurisdiction user_text
      (uj_opportunity user_text (uj_use_case chat_history
        (uj_industry user_text p)))))))

/-- `update_judgments(chat_history, intake_packet, changed_field)`. -/
def update_judgments (chat_history : List ChatMessage) (p : IntakePacket)
    (changed_field : Option String := none) :
    IntakePacket × List Assumption × List String :=
  let p8 := uj_extract_chain chat_history p
  let (p9, rippled) := uj_ripple changed_field p8 []
  let assumptions := rippled ++ genAssumptions p9
  (p9, assumptions, openQuestionScan p9)

/-- `get_blocker_status` restricted to the `required` list of
`can_proceed_to_research`: CJ01 industry, CJ02 use case, CJ04
jurisdiction. -/
def can_proceed_to_research (p : IntakePacket) : Bool × List String :=
  let missing :=
    (if optTruthy p.industry.value then [] else ["CJ01"]) ++
    (if optTruthy p.use_case_intent.value then [] else ["CJ02"]) ++
    (if optTruthy p.jurisdiction.value then [] else ["CJ04"])
  (missing.isEmpty, missing)

/-! ## The intake state machine (`modules/chat_intake.py`) -/

/-- `UX_COPY["S0_ENTRY"]`. -/
def UX_S0_ENTRY : String :=
  "Hi! I\x27m here to help you scope an AI agent project. I\x27ll ask a few questions to understand what you\x27re trying to do, then generate a detailed assessment.\n\nYou don\x27t need to be precise — I\x27ll make reasonable assumptions and show them to you before anything runs."

/-- `UX_COPY["S1_INTENT"]`. -/
def UX_S1_INTENT : String :=
  "What problem are you trying to solve with an AI agent?\n\n_Example: \"I want to predict when our factory machines will need maintenance before they break down.\"_"

/-- `UX_COPY["S2_OPPORTUNITY"]`. -/
def UX_S2_OPPORTUNITY : String :=
  "What would success look like? Are you mainly trying to:\n- **Grow revenue** (sell more, reach more customers)\n- **Save money or time** (efficiency, automation)\n- **Reduce risk** (errors, compliance, safety)\n- **Transform operations** (fundamentally change how you work)\n\n_Example: \"Mainly saving money — avoiding unplanned downtime and emergency repairs.\"_"

/-- `UX_COPY["S3_CONTEXT"]`. -/
def UX_S3_CONTEXT : String :=
  "Quick context: Where does this operate, and roughly how big is your organization?\n\n_Example: \"Three manufacturing plants in the Midwest US, about 200 employees.\"_"

/-- `UX_COPY["S4_INTEGRATION"]`. -/
def UX_S4_INTEGRATION : String :=
  "Will this agent need to connect to any existing systems?\n\nThings like: CRM, calendar, payment processor, inventory system, databases, sensors, ERP, etc.\n\n_Example: \"Our machines have sensors feeding into a SCADA system, and we use SAP for maintenance scheduling.\"_"

/-- `UX_COPY["S4_RISK"]`. -/
def UX_S4_RISK : String :=
  "If the agent made a mistake, what\x27s the worst that could happen?\n\n_Example: \"If it misses a prediction, a machine could fail unexpectedly — that\x27s costly but not dangerous since we have safety shutoffs.\"_"

/-- `UX_COPY["S5_ASSUMPTIONS_CHECK"]`. -/
def UX_S5_ASSUMPTIONS_CHECK : String :=
  "Let me summarize what I\x27ve understood. Please correct anything that\x27s off — this is what I\x27ll base the research on:"

/-- `UX_COPY["HARD_STOP"]`. -/
def UX_HARD_STOP : String :=
  "We\x27ve covered a lot of ground. I have enough to work with — ready to proceed?"

/-- An action button emitted alongside a system message. -/
structure Button where
  id : String
  label : String
  action : UAction
deriving DecidableEq, Repr

/-- `CHECKPOINT_BUTTONS` (PRD Part 8 S5). -/
def CHECKPOINT_BUTTONS : List Button :=
  [⟨"proceed", "Looks right — proceed", .confirm_proceed⟩,
   ⟨"fix", "Fix one thing", .fix_assumption⟩,
   ⟨"ask", "Ask me the most important question", .ask_question⟩,
   ⟨"fast", "Just run it", .fast_path⟩]

/-- `HARD_STOP_BUTTONS` (PRD Part 6.4). -/
def HARD_STOP_BUTTONS : List Button :=
  [⟨"proceed", "Yes, run the analysis", .confirm_proceed⟩,
   ⟨"more", "Let me add one more thing", .message⟩,
   ⟨"restart", "Start over", .start_over⟩]

/-- `get_initial_messages()`. -/
def get_initial_messages : List ChatMessage :=
  [create_message .assistant UX_S0_ENTRY .S0_ENTRY,
   create_message .assistant UX_S1_INTENT .S1_INTENT]

/-- `determine_next_state(current_state, intake_packet, timebox,
user_action, config)`.  The `timebox` and `config` parameters are accepted
but unread, as in the source. -/
def determine_next_state (current_state : IState) (intake_packet : IntakePacket)
    (timebox : TimeboxState) (user_action : UAction)
    (config : Option TimeboxCfg := none) : IState :=
  if user_action == .fast_path &&
      [IState.S0_ENTRY, .S1_INTENT, .S2_OPPORTUNITY, .S3_CONTEXT,
       .S4_INTEGRATION_RISK].contains current_state then
    .S5_ASSUMPTIONS_CHECK
  else if user_action == .fast_path &&
      current_state == .S5_ASSUMPTIONS_CHECK then
    .S6_RUN_STEP0
  else if user_action == .confirm_proceed &&
      current_state == .S5_ASSUMPTIONS_CHECK then
    .S6_RUN_STEP0
  else if user_action == .confirm_proceed &&
      current_state == .S7_CONFIRM_TYPE then
    .S8_RUN_STEP1_3
  else if user_action == .start_over then
    .S0_ENTRY
  else
    match current_state with
    | .S0_ENTRY => .S1_INTENT
    | .S1_INTENT =>
        match intake_packet.use_case_intent.value with
        | some uc => if uc.length > 20 then .S2_OPPORTUNITY else .S1_INTENT
        | none => .S1_INTENT
    | .S2_OPPORTUNITY =>
        if optTruthy intake_packet.opportunity_shape.value then .S3_CONTEXT
        else .S2_OPPORTUNITY
    | .S3_CONTEXT =>
        if optTruthy intake_packet.industry.value &&
            optTruthy intake_packet.jurisdiction.value then
          if is_regulated_domain intake_packet ||
              !intake_packet.integration_surface.systems.isEmpty then
            .S4_INTEGRATION_RISK
          else .S5_ASSUMPTIONS_CHECK
        else .S3_CONTEXT
    | .S4_INTEGRATION_RISK => .S5_ASSUMPTIONS_CHECK
    | .S5_ASSUMPTIONS_CHECK => .S5_ASSUMPTIONS_CHECK
    | .S6_RUN_STEP0 => .S7_CONFIRM_TYPE
    | .S7_CONFIRM_TYPE => .S7_CONFIRM_TYPE
    | .S8_RUN_STEP1_3 => .S9_EXPORTS
    | s => s

/-- `generate_system_response(state, intake_packet, assumptions,
open_questions, timebox)`: the messages and buttons for the state just
entered. -/
def generate_system_response (state : IState) (intake_packet : IntakePacket)
    (assumptions : List Assumption) (open_questions : List String)
    (timebox : TimeboxState) : List String × Option (List Button) :=
  match state with
  | .S1_INTENT =>
      (if optTruthy intake_packet.use_case_intent.value then []
       else [UX_S1_INTENT], none)
  | .S2_OPPORTUNITY =>
      (if optTruthy intake_packet.opportunity_shape.value then []
       else [UX_S2_OPPORTUNITY], none)
  | .S3_CONTEXT =>
      let missing :=
        (if optTruthy intake_packet.industry.value then []
         else ["industry"]) ++
        (if optTruthy intake_packet.jurisdiction.value then []
         else ["jurisdiction"]) ++
        (if optTruthy intake_packet.organization_size.bucket then []
         else ["organization size"])
      (if missing.isEmpty then
        ["Got it. Let me put together what I\x27ve understood."]
       else [UX_S3_CONTEXT], none)
  | .S4_INTEGRATION_RISK =>
      ((if is_regulated_domain intake_packet &&
           !optTruthy intake_packet.risk_posture.worst_case then
         [UX_S4_RISK]
        else []) ++
       (if !intake_packet.integration_surface.systems.isEmpty then
         [UX_S4_INTEGRATION]
        else []), none)
  | .S5_ASSUMPTIONS_CHECK =>
      let summary_parts :=
        (match intake_packet.industry.value with
         | some v => if v.isEmpty then [] else ["**Industry:** " ++ v]
         | none => []) ++
        (match intake_packet.use_case_intent.value with
         | some v => if v.isEmpty then []
             else ["**Use Case:** " ++ takeStr v 200 ++ "..."]
         | none => []) ++
        (match intake_packet.opportunity_shape.value with
         | some v => if v.isEmpty then [] else ["**Goal:** " ++ v]
         | none => []) ++
        (match intake_packet.jurisdiction.value with
         | some v => if v.isEmpty then [] else ["**Jurisdiction:** " ++ v]
         | none => []) ++
        (match intake_packet.organization_size.bucket with
         | some v => if v.isEmpty then [] else ["**Org Size:** " ++ v]
         | none => []) ++
        (match intake_packet.timeline.bucket with
         | some v => if v.isEmpty then [] else ["**Timeline:** " ++ v]
         | none => [])
      let base := [UX_S5_ASSUMPTIONS_CHECK] ++
        (if summary_parts.isEmpty then []
         else [String.intercalate "\n" summary_parts]) ++
        (if assumptions.isEmpty then []
         else
          [(assumptions.take 5).foldl
            (fun acc a => acc ++ "- " ++ a.statement ++
              (if a.confidence == .low then "?" else "") ++ "\n")
            "\n**Assumptions I\x27m making:**\n"])
      (base, some CHECKPOINT_BUTTONS)
  | _ => ([], none)

/-- Result record of `chat_intake_step` (`ChatIntakeResult`); the
`artifact_updates` dict is modelled as the list of section keys set. -/
structure ChatIntakeResult where
  new_state : IState
  system_messages : List String
  intake_packet : IntakePacket
  assumptions : List Assumption
  artifact_updates : List String
  open_questions : List String
  should_run_step0 : Bool
  buttons : Option (List Button)
deriving DecidableEq, Repr

/-- `chat_intake_step`, additionally returning the locals `new_chat_history`
and `timebox` that the source builds but does not put into its
`ChatIntakeResult` (the Streamlit caller keeps its own copies); the first
component is exactly the dict the source returns.  When
`should_force_proceed` holds, the source assigns `S5_ASSUMPTIONS_CHECK`
to `new_state` inside the hard-stop branch, but that assignment is dead:
the unconditional `new_state = determine_next_state(...)` that follows
overwrites it, which is why no force-proceed case appears below. -/
def chat_intake_core (chat_history : List ChatMessage)
    (intake_packet : IntakePacket) (artifact_doc : List String)
    (assumptions : List Assumption) (timebox : TimeboxState)
    (current_state : IState) (user_message : Option String)
    (user_action : UAction) (config : Option TimeboxCfg) :
    ChatIntakeResult × List ChatMessage × TimeboxState :=
  let msgTruthy := optTruthy user_message
  let history1 := match user_message with
    | some m =>
        if m.isEmpty then chat_history
        else chat_history ++ [create_message .user m current_state]
    | none => chat_history
  let timebox1 :=
    if msgTruthy then register_turn timebox false config else timebox
  let (updated_packet, new_assumptions, open_questions) :=
    update_judgments history1 intake_packet
  let preCheckpoint := !([IState.S5_ASSUMPTIONS_CHECK, .S6_RUN_STEP0,
    .S7_CONFIRM_TYPE, .S8_RUN_STEP1_3, .S9_EXPORTS].contains current_state)
  if reached_hard_stop timebox1 config && preCheckpoint &&
      !should_force_proceed timebox1 then
    let system_msgs := [UX_HARD_STOP]
    ({ new_state := current_state,
       system_messages := system_msgs,
       intake_packet := updated_packet,
       assumptions := new_assumptions,
       artifact_updates := [],
       open_questions := open_questions,
       should_run_step0 := false,
       buttons := some HARD_STOP_BUTTONS },
     history1 ++ system_msgs.map
       (fun m => create_message .assistant m current_state),
     timebox1)
  else
    let new_state :=
      determine_next_state current_state updated_packet timebox1
        user_action config
    let timebox2 :=
      if should_offer_fast_path timebox1 config &&
          !([IState.S5_ASSUMPTIONS_CHECK, .S6_RUN_STEP0].contains new_state)
      then mark_fast_path_offered timebox1
      else timebox1
    let (system_msgs, buttons) :=
      generate_system_response new_state updated_packet new_assumptions
        open_questions timebox2
    let history2 := history1 ++ system_msgs.map
      (fun m => create_message .assistant m new_state)
    let artifact_updates :=
      if [IState.S1_INTENT, .S2_OPPORTUNITY].contains new_state then
        ["section_1", "section_2"]
      else if [IState.S3_CONTEXT, .S4_INTEGRATION_RISK].contains new_state
      then ["section_3"]
      else if new_state == .S5_ASSUMPTIONS_CHECK then ["section_7"]
      else []
    let should_run := new_state == .S6_RUN_STEP0 &&
      (can_proceed_to_research updated_packet).1
    ({ new_state := new_state,
       system_messages := system_msgs,
       intake_packet := updated_packet,
       assumptions := new_assumptions,
       artifact_updates := artifact_updates,
       open_questions := open_questions,
       should_run_step0 := should_run,
       buttons := buttons },
     history2, timebox2)

/-- `chat_intake_step`: the dict the source function returns. -/
def chat_intake_step (chat_history : List ChatMessage)
    (intake_packet : IntakePacket) (artifact_doc : List String)
    (assumptions : List Assumption) (timebox : TimeboxState)
    (current_state : IState) (user_message : Option String := none)
    (user_action : UAction := .message)
    (config : Option TimeboxCfg := none) : ChatIntakeResult :=
  (chat_intake_core chat_history intake_packet artifact_doc assumptions
    timebox current_state user_message user_action config).1

/-- The `a["status"] = "corrected"; break` loop of `handle_fix_assumption`:
mark the first assumption with the given id. -/
def markFirstCorrected (aid : String) : List Assumption → List Assumption
  | [] => []
  | a :: rest =>
      if a.id == aid then { a with status := .corrected } :: rest
      else a :: markFirstCorrected aid rest

/-- `handle_fix_assumption(assumption_id, new_value, intake_packet,
assumptions)`.  When a dependency ripple fires, the source rebinds
`assumptions` to the list generated by `update_judgments`, so the
`corrected` marking applied just before is absent from the returned
list — embedded exactly as the source behaves. -/
def handle_fix_assumption (assumption_id new_value : String)
    (intake_packet : IntakePacket) (assumptions : List Assumption) :
    IntakePacket × List Assumption :=
  match assumptions.find? (fun a => a.id == assumption_id) with
  | none => (intake_packet, assumptions)
  | some a =>
      let sl := lowerStr a.statement
      let changedPair :=
        if strContains sl "industry" then
          (some "industry", { intake_packet with industry :=
            ⟨some new_value, .high, .user_edit, none⟩ })
        else if strContains sl "jurisdiction" then
          (some "jurisdiction", { intake_packet with jurisdiction :=
            ⟨some new_value, .high, .user_edit, none⟩ })
        else if strContains sl "timeline" then
          (some "timeline", { intake_packet with timeline :=
            ⟨intake_packet.timeline.bucket, some new_value, .high,
             .user_edit⟩ })
        else if strContains sl "org" || strContains sl "size" then
          (some "organization_size", { intake_packet with
            organization_size :=
            ⟨intake_packet.organization_size.bucket, some new_value, .high,
             .user_edit⟩ })
        else (none, intake_packet)
      let marked := markFirstCorrected assumption_id assumptions
      match changedPair with
      | (some cf, p1) =>
          let (p2, asms2, _) := update_judgments [] p1 (some cf)
          (p2, asms2)
      | (none, p1) => (p1, marked)

/-! ## Per-state extraction handlers (`modules/chat_llm_v2.py`)

The language-model call is an external collaborator; its parsed result
(`_parse_json(_call_llm(...))`) enters the embedding as an oracle value of
type `Option Extracted` — `none` is the call/parse-failure path that
triggers the keyword fallback. -/

/-- The fields of the parsed intent-extraction dict that
`_handle_intent_state` reads (absent keys are `none`). -/
structure Extracted where
  summary : Option String := none
  industry : Option String := none
  needs_more_info : Bool := false
  reasoning : Option String := none
deriving DecidableEq, Repr

/-- `RESPONSES["S1_NEED_MORE"]`. -/
def RESP_S1_NEED_MORE : String :=
  "I\x27d love to help, but I need a bit more detail. What specific problem are you trying to solve?\n\n_Example: \"I want to predict when our factory machines will need maintenance before they break down.\"_"

/-- `RESPONSES["S2_OPPORTUNITY"]`. -/
def RESP_S2_OPPORTUNITY : String :=
  "Got it! What would success look like for you? Are you mainly trying to:\n\n- **Grow revenue** (sell more, reach more customers)\n- **Save money or time** (efficiency, automation)\n- **Reduce risk** (errors, compliance, safety)\n- **Transform operations** (fundamentally change how you work)\n\n_Example: \"Mainly saving money — avoiding unplanned downtime and emergency repairs.\"_"

/-- The `industry_keywords` table of `_detect_industry`, in dict insertion
order (more specific industries first). -/
def V2_INDUSTRY_KEYWORDS : List (String × List String) :=
  [("hospitality", ["banquet", "banquets", "catering", "hotel", "hotels",
      "restaurant", "event", "events", "wedding", "venue", "venues",
      "food service", "hospitality", "reception", "ballroom", "dining"]),
   ("healthcare", ["medical", "hospital", "clinic", "patient", "health",
      "doctor", "nurse", "healthcare", "clinical", "pharma",
      "pharmaceutical"]),
   ("retail", ["store", "stores", "shop", "retail", "merchandise",
      "ecommerce", "shopping", "inventory", "pos", "point of sale"]),
   ("finance", ["bank", "banking", "financial", "investment", "trading",
      "loan", "insurance", "fintech", "accounting", "payment"]),
   ("manufacturing", ["factory", "production", "assembly", "manufacturing",
      "supply chain", "warehouse", "industrial"]),
   ("technology", ["software", "app", "platform", "saas", "tech",
      "developer", "code", "api", "cloud", "data center"]),
   ("education", ["school", "university", "student", "teacher", "learning",
      "education", "training", "course", "academic"]),
   ("real_estate", ["property", "real estate", "rental", "landlord",
      "tenant", "building", "apartment", "housing"]),
   ("logistics", ["shipping", "delivery", "warehouse", "logistics",
      "freight", "transport", "fleet", "courier"])]

/-- `_detect_industry(text)`: the first industry, in table order, with a
keyword occurring in the lowercased text. -/
def detect_industry (text : String) : Option String :=
  let tl := lowerStr text
  (V2_INDUSTRY_KEYWORDS.find? fun p =>
    p.2.any (fun kw => strContains tl kw)).map Prod.fst

/-- The `mappings` table of `_normalize_industry`, in dict insertion
order. -/
def NORMALIZE_MAPPINGS : List (String × String) :=
  [("hospitality", "hospitality"), ("hotels", "hospitality"),
   ("restaurants", "hospitality"), ("events", "hospitality"),
   ("food", "hospitality"), ("catering", "hospitality"),
   ("healthcare", "healthcare"), ("medical", "healthcare"),
   ("health", "healthcare"), ("retail", "retail"),
   ("ecommerce", "retail"), ("finance", "finance"),
   ("banking", "finance"), ("financial", "finance"),
   ("manufacturing", "manufacturing"), ("industrial", "manufacturing"),
   ("technology", "technology"), ("tech", "technology"),
   ("software", "technology"), ("education", "education"),
   ("real estate", "real_estate"), ("property", "real_estate"),
   ("logistics", "logistics"), ("transportation", "logistics"),
   ("energy", "energy")]

/-- `_normalize_industry(industry)`: exact mapping lookup, then partial
(substring) lookup in table order, else the lowercased input itself. -/
def normalize_industry (industry : String) : Option String :=
  if industry.isEmpty then none
  else
    let il := stripStr (lowerStr industry)
    match NORMALIZE_MAPPINGS.find? (fun p => p.1 == il) with
    | some p => some p.2
    | none =>
        match NORMALIZE_MAPPINGS.find? (fun p => strContains il p.1) with
        | some p => some p.2
        | none => some il

/-- Time units of the `(\d+)\s*(week|month|quarter|year)s?` pattern. -/
inductive TUnit
  | week
  | month
  | quarter
  | year
deriving DecidableEq, Repr

/-- Python `\s` character class. -/
def isPySpace (c : Char) : Bool :=
  c == ' ' || c == '\t' || c == '\n' || c == '\r' || c == '\x0b' ||
  c == '\x0c'

/-- Match the `(week|month|quarter|year)` alternation as a prefix. -/
def unitAt (l : List Char) : Option TUnit :=
  if charsPrefixAt "week".data l then some .week
  else if charsPrefixAt "month".data l then some .month
  else if charsPrefixAt "quarter".data l then some .quarter
  else if charsPrefixAt "year".data l then some .year
  else none

/-- Attempt the duration pattern at the head of the character list:
a maximal nonempty digit run, optional whitespace, then a unit word
(shrinking the greedy `\d+` run can never succeed, since the character
after a shortened run is a digit). -/
def tryTimeMatch (l : List Char) : Option (Nat × TUnit) :=
  let digits := l.takeWhile Char.isDigit
  if digits.isEmpty then none
  else
    let rest := (l.dropWhile Char.isDigit).dropWhile isPySpace
    match unitAt rest with
    | some u =>
        some (digits.foldl (fun a c => a * 10 + (c.toNat - 48)) 0, u)
    | none => none

/-- `re.search` of the duration pattern: the leftmost position where the
pattern matches. -/
def findTimeMatch : List Char → Option (Nat × TUnit)
  | [] => none
  | c :: rest =>
      match tryTimeMatch (c :: rest) with
      | some r => some r
      | none => findTimeMatch rest

/-- A duration in quarter-month units (weeks count 0.25 month, exactly
representable at this resolution). -/
def monthsQ : Nat → TUnit → Nat
  | n, .week => n
  | n, .month => n * 4
  | n, .quarter => n * 12
  | n, .year => n * 48

/-- The urgent-indicator keywords of `_detect_timeline`. -/
def URGENT_KEYWORDS : List String :=
  ["urgent", "asap", "immediately", "this week", "next week", "critical",
   "emergency"]

/-- `_detect_timeline(text)`: urgent indicators first, then the duration
pattern (≤1 month urgent, ≤6 months near-term, else exploratory), then
the relative-period phrases, then near-term and exploratory indicator
lists. -/
def detect_timeline (text : String) : Option String :=
  let tl := lowerStr text
  if URGENT_KEYWORDS.any (fun w => strContains tl w) then some "urgent"
  else
    match findTimeMatch tl.data with
    | some (num, u) =>
        let m4 := monthsQ num u
        if m4 ≤ 4 then some "urgent"
        else if m4 ≤ 24 then some "near-term"
        else some "exploratory"
    | none =>
        if strContains tl "this month" then some "urgent"
        else if strContains tl "this quarter" ||
            strContains tl "next quarter" then some "near-term"
        else if strContains tl "this year" ||
            strContains tl "next year" then some "exploratory"
        else if ["soon", "pilot", "few months", "near-term", "q1", "q2",
            "q3", "q4"].any (fun w => strContains tl w) then
          some "near-term"
        else if ["exploring", "research", "looking into", "considering",
            "early stage", "no rush", "eventually"].any
            (fun w => strContains tl w) then
          some "exploratory"
        else none

/-- The `intake_packet_updates` keys that `_handle_intent_state` can
produce (`use_case_synthesized` lands in a dict key outside the fixed
packet field set and is carried separately). -/
structure IntentUpdates where
  use_case_intent : Option JValue := none
  use_case_synthesized : Option String := none
  industry : Option JValue := none
deriving DecidableEq, Repr

/-- Result of `_handle_intent_state` (the `assumptions` list it returns is
always empty and the `debug_info` dict is logging only; both omitted). -/
structure IntentResult where
  extracted : Option Extracted
  next_state : IState
  system_response : Option String
  intake_packet_updates : IntentUpdates
deriving DecidableEq, Repr

/-- `_handle_intent_state(client, user_message, intake_packet, ...)` with
the parsed LLM response abstracted as the `llm` oracle: on a parse
success, store the summary with high confidence and resolve the industry
with the keyword-override precedence; on failure, fall back to the raw
message (low confidence) and keyword industry detection. -/
def handle_intent_state (llm : Option Extracted) (user_message : String) :
    IntentResult :=
  match llm with
  | some ext =>
      let u1 : IntentUpdates :=
        if optTruthy ext.summary then
          { use_case_intent := some
              ⟨ext.summary, .high, .llm_extracted,
               some (ext.reasoning.getD "")⟩,
            use_case_synthesized := ext.summary }
        else {}
      let u2 : IntentUpdates :=
        if optTruthy ext.industry then
          let llm_industry := normalize_industry (ext.industry.getD "")
          let keyword_industry := detect_industry user_message
          let pick : Option String × Conf × Source :=
            if optTruthy keyword_industry &&
                keyword_industry != llm_industry then
              (keyword_industry, .high, .keyword_override)
            else if optTruthy llm_industry then
              (llm_industry, .high, .llm_extracted)
            else
              (keyword_industry,
               if optTruthy keyword_industry then Conf.med else Conf.low,
               if optTruthy keyword_industry then Source.keyword_match
               else Source.unknown)
          if optTruthy pick.1 then
            { u1 with industry := some ⟨pick.1, pick.2.1, pick.2.2, none⟩ }
          else u1
        else u1
      if ext.needs_more_info then
        { extracted := some ext, next_state := .S1_INTENT,
          system_response := some RESP_S1_NEED_MORE,
          intake_packet_updates := u2 }
      else
        { extracted := some ext, next_state := .S2_OPPORTUNITY,
          system_response := some RESP_S2_OPPORTUNITY,
          intake_packet_updates := u2 }
  | none =>
      let u1 : IntentUpdates :=
        { use_case_intent := some
            ⟨some user_message, .low, .user_direct, none⟩ }
      let u2 : IntentUpdates :=
        match detect_industry user_message with
        | some ind =>
            { u1 with industry := some ⟨some ind, .med, .keyword_match,
                none⟩ }
        | none => u1
      { extracted := none, next_state := .S2_OPPORTUNITY,
        system_response := some RESP_S2_OPPORTUNITY,
        intake_packet_updates := u2 }

/-- The `for key, value in result["intake_packet_updates"].items():
intake_packet[key] = value` loop of `handle_chat_message` in `app.py`:
updates overwrite packet fields unconditionally. -/
def applyIntentUpdates (p : IntakePacket) (u : IntentUpdates) :
    IntakePacket :=
  let p1 := match u.use_case_intent with
    | some jv => { p with use_case_intent := jv }
    | none => p
  match u.industry with
  | some jv => { p1 with industry := jv }
  | none => p1

/-! ## Session-level chat state and the start-over handler (`app.py`) -/

/-- The chat-mode session variables of `app.py` that the start-over
handler touches (the artifact document, also reset there, is rendering
state outside this model). -/
structure AppSession where
  chat_history : List ChatMessage
  current_state : IState
  intake_packet : IntakePacket
  assumptions : List Assumption
  timebox : TimeboxState
  chat_buttons : Option (List Button)
deriving DecidableEq, Repr

/-- The `action == "start_over"` branch of `handle_chat_action`. -/
def appStartOver (_s : AppSession) : AppSession :=
  { chat_history := get_initial_messages,
    current_state := .S0_ENTRY,
    intake_packet := init_intake_packet,
    assumptions := [],
    timebox := init_timebox,
    chat_buttons := none }

/-! ## Context handoff builder (`modules/context_handoff.py`) -/

/-- A value in a block\x27s `facts` dict that the handoff logic can
observe: the `constraints` key may hold a string or a list. -/
inductive FactVal
  | str (s : String)
  | list (l : List String)
deriving DecidableEq, Repr

/-- A `facts` dict as an association list. -/
abbrev Facts := List (String × FactVal)

/-- `facts.get(key)`. -/
def factsGet (f : Facts) (k : String) : Option FactVal :=
  (f.find? (fun p => p.1 == k)).map Prod.snd

/-- Python truthiness of a fact value. -/
def factTruthy : Option FactVal → Bool
  | none => false
  | some (.str s) => !s.isEmpty
  | some (.list l) => !l.isEmpty

/-- `facts.get("constraints", [])` with the `isinstance(str)` wrap. -/
def constraintsAsList : Option FactVal → List String
  | none => []
  | some (.str s) => [s]
  | some (.list l) => l

/-- `ContextBlock` dataclass. -/
structure ContextBlock where
  stage : String
  timestamp : String
  user_verbatim : String
  facts : Facts
  reasoning : String
  open_questions : List String
  builds_on : Option String := none
  confidence : String := "medium"
deriving DecidableEq, Repr

/-- `ContextHandoff` dataclass. -/
structure ContextHandoff where
  session_id : String
  created_at : String
  narrative : String := ""
  blocks : List ContextBlock := []
  themes : List String := []
  golden_thread : String := ""
  constraints : List String := []
  tensions : List String := []
deriving DecidableEq, Repr

/-- `ContextHandoff.add_block(block)`: append the block; set the golden
thread if this is an entry/intent block and none is set yet; accumulate
constraints; collect conflict/tension questions. -/
def add_block (h : ContextHandoff) (block : ContextBlock) :
    ContextHandoff :=
  let h1 := { h with blocks := h.blocks ++ [block] }
  let h2 :=
    if (block.stage == "S0_ENTRY" || block.stage == "S1_INTENT") &&
        h1.golden_thread.isEmpty then
      { h1 with golden_thread := block.user_verbatim }
    else h1
  let h3 :=
    if strContains (lowerStr block.stage) "boundary" ||
        factTruthy (factsGet block.facts "constraints") then
      { h2 with constraints := h2.constraints ++
          constraintsAsList (factsGet block.facts "constraints") }
    else h2
  { h3 with tensions := h3.tensions ++
      (block.open_questions.filter fun q =>
        strContains (lowerStr q) "conflict" ||
        strContains (lowerStr q) "tension") }

/-- `ContextHandoff.update_narrative(new_content, stage)`; the wall-clock
`%H:%M` stamp enters as the `ts` parameter. -/
def update_narrative (h : ContextHandoff) (new_content stage ts : String) :
    ContextHandoff :=
  if h.narrative.isEmpty then
    { h with narrative := "[" ++ stage ++ " @ " ++ ts ++ "] " ++
        new_content }
  else
    { h with narrative := h.narrative ++ "\n\n[" ++ stage ++ " @ " ++ ts ++
        "] " ++ new_content }

/-- `ContextHandoff.add_theme(theme)`. -/
def add_theme (h : ContextHandoff) (theme : String) : ContextHandoff :=
  if h.themes.contains theme then h
  else { h with themes := h.themes ++ [theme] }

/-- The mutating operations a session performs on its handoff after a
block is recorded. -/
inductive HandoffOp
  | addBlock (b : ContextBlock)
  | updNarrative (content stage ts : String)
  | addTheme (t : String)

/-- Apply one handoff operation. -/
def applyOp (h : ContextHandoff) : HandoffOp → ContextHandoff
  | .addBlock b => add_block h b
  | .updNarrative c s ts => update_narrative h c s ts
  | .addTheme t => add_theme h t

/-- The dict produced by `asdict` for one block inside
`ContextHandoff.to_dict`. -/
structure BlockDict where
  stage : String
  timestamp : String
  user_verbatim : String
  facts : Facts
  reasoning : String
  open_questions : List String
  builds_on : Option String
  confidence : String
deriving DecidableEq, Repr

/-- The dict produced by `ContextHandoff.to_dict`. -/
structure HandoffDict where
  session_id : String
  created_at : String
  narrative : String
  blocks : List BlockDict
  themes : List String
  golden_thread : String
  constraints : List String
  tensions : List String
deriving DecidableEq, Repr

/-- `asdict(b)` for a context block. -/
def asdictBlock (b : ContextBlock) : BlockDict :=
  ⟨b.stage, b.timestamp, b.user_verbatim, b.facts, b.reasoning,
   b.open_questions, b.builds_on, b.confidence⟩

/-- `ContextHandoff.to_dict()`. -/
def to_dict (h : ContextHandoff) : HandoffDict :=
  ⟨h.session_id, h.created_at, h.narrative, h.blocks.map asdictBlock,
   h.themes, h.golden_thread, h.constraints, h.tensions⟩

/-- `ContextBlock(**b)` inside `from_dict`. -/
def blockOfDict (b : BlockDict) : ContextBlock :=
  ⟨b.stage, b.timestamp, b.user_verbatim, b.facts, b.reasoning,
   b.open_questions, b.builds_on, b.confidence⟩

/-- `ContextHandoff.from_dict(data)`. -/
def from_dict (d : HandoffDict) : ContextHandoff :=
  ⟨d.session_id, d.created_at, d.narrative, d.blocks.map blockOfDict,
   d.themes, d.golden_thread, d.constraints, d.tensions⟩

/-! ## Concrete sessions and packets used by the theorems -/

/-- The timebox after `n` plain (non-hard-question) registered turns under
the default configuration. -/
def tbN (n : Nat) : TimeboxState :=
  (List.range n).foldl (fun t _ => register_turn t false none) init_timebox

/-- A packet in which the industry was inferred as healthcare and the
risk posture inferred high from it. -/
def pHealthcare : IntakePacket :=
  { init_intake_packet with
    industry := ⟨some "healthcare", .med, .inferred, none⟩,
    risk_posture := ⟨some "high", none, .med, .inferred⟩ }

/-- The assumption list derived from `pHealthcare`\x27s inferred industry. -/
def healthAssumptions : List Assumption :=
  [⟨"A1", "Industry is healthcare", .med, .high, false, .assumed⟩]

/-- A packet whose use-case intent was already extracted with high
confidence. -/
def pHighIntent : IntakePacket :=
  { init_intake_packet with
    use_case_intent := ⟨some "Predict catering demand for our banquet halls",
      .high, .llm_extracted, none⟩ }

/-- A packet with every observable field set, for witness instantiation. -/
def pFull : IntakePacket where
  industry := ⟨some "retail", .high, .llm_extracted, none⟩
  use_case_intent := ⟨some "Predict demand for our stores well in advance",
    .high, .llm_extracted, none⟩
  opportunity_shape := ⟨some "cost", .med, .inferred, none⟩
  jurisdiction := ⟨some "US", .high, .inferred, none⟩
  timeline := ⟨some "0-3mo", some "POC/Pilot", .high, .inferred⟩
  organization_size := ⟨some "51-200", some "Mid-size", .med, .inferred⟩
  stakeholder_reality := ⟨none, .low, .inferred, none⟩
  integration_surface := ⟨["SAP"], some "Integrates with: SAP", .med,
    .inferred⟩
  risk_posture := ⟨some "medium", none, .low, .inferred⟩
  boundaries := ⟨none, .low, .inferred, none⟩

/-- The banquet-hall scenario message. -/
def banquetMsg : String :=
  "We run banquet halls and want to predict catering demand"

/-- A hypothetical parsed LLM intent result that mis-tags the industry as
`events`. -/
def extEvents : Extracted :=
  { summary := some "Forecast catering demand for banquet halls",
    industry := some "events" }

/-- A fresh context handoff document. -/
def emptyHandoff : ContextHandoff :=
  { session_id := "s1", created_at := "2025-01-01T00:00:00" }

/-- An intent-stage block whose verbatim user text is empty. -/
def intentBlockEmpty : ContextBlock :=
  { stage := "S1_INTENT", timestamp := "t1", user_verbatim := "",
    facts := [], reasoning := "", open_questions := [] }

/-- An intent-stage block with real verbatim user text. -/
def intentBlockReal : ContextBlock :=
  { stage := "S1_INTENT", timestamp := "t2",
    user_verbatim := "we want to forecast demand", facts := [],
    reasoning := "the user wants demand forecasting",
    open_questions := [] }

/-! ## Helper lemmas -/

/-- One `register_turn` call: turns grow by exactly one, the extension
count grows exactly when the hard stop was already reached before the
call, and the hard-stop flag is the old flag or the new turn count
reaching the cap. -/
theorem register_turn_eqs (t : TimeboxState) (hq : Bool)
    (cfg : Option TimeboxCfg) :
    (register_turn t hq cfg).turns = t.turns + 1 ∧
    (register_turn t hq cfg).extension_turns =
      t.extension_turns + (if t.hard_stop_reached then 1 else 0) ∧
    (register_turn t hq cfg).hard_stop_reached =
      (t.hard_stop_reached || decide (hardCapOf cfg ≤ t.turns + 1)) := by
  unfold register_turn
  refine ⟨rfl, ?_, ?_⟩
  · cases h : t.hard_stop_reached <;> simp [h]
  · cases h : t.hard_stop_reached <;> simp [h]

/-- Every `tbN` state is reachable by registering turns. -/
theorem reachable_tbN (n : Nat) : ReachableTB (tbN n) := by
  induction n with
  | zero => exact .init
  | succ n ih =>
      have h : tbN (n + 1) = register_turn (tbN n) false none := by
        unfold tbN
        rw [List.range_succ, List.foldl_append]
        rfl
      rw [h]
      exact .step false none ih

/-- `update_narrative` and `add_theme` leave the golden thread alone, and
`add_block` leaves a nonempty golden thread alone. -/
theorem applyOp_golden_thread (h : ContextHandoff) (op : HandoffOp)
    (hne : h.golden_thread ≠ "") :
    (applyOp h op).golden_thread = h.golden_thread := by
  cases op with
  | addBlock b =>
      show (add_block h b).golden_thread = h.golden_thread
      unfold add_block
      have hempty : h.golden_thread.isEmpty = false := by
        cases hg : h.golden_thread.isEmpty
        · rfl
        · exact absurd ((String.isEmpty_iff _).mp hg) hne
      simp only [hempty, Bool.and_false, if_false]
      split <;> rfl
  | updNarrative c s ts =>
      show (update_narrative h c s ts).golden_thread = h.golden_thread
      unfold update_narrative
      split <;> rfl
  | addTheme t =>
      show (add_theme h t).golden_thread = h.golden_thread
      unfold add_theme
      split <;> rfl

/-- Folding handoff operations preserves a nonempty golden thread. -/
theorem foldl_golden_thread (ops : List HandoffOp) :
    ∀ h : ContextHandoff, h.golden_thread ≠ "" →
      (ops.foldl applyOp h).golden_thread = h.golden_thread := by
  induction ops with
  | nil => intro h _; rfl
  | cons op rest ih =>
      intro h hne
      rw [List.foldl_cons]
      have hop := applyOp_golden_thread h op hne
      rw [ih (applyOp h op) (by rw [hop]; exact hne), hop]

/-- `asdict` followed by `ContextBlock(**b)` is the identity on blocks. -/
theorem block_round_trip (b : ContextBlock) :
    blockOfDict (asdictBlock b) = b := by
  cases b
  rfl

/-- `uj_industry` writes only the `industry` entry. -/
@[simp] theorem uj_industry_proj (t : String) (p : IntakePacket) :
    (uj_industry t p).use_case_intent = p.use_case_intent ∧
    (uj_industry t p).opportunity_shape = p.opportunity_shape ∧
    (uj_industry t p).jurisdiction = p.jurisdiction ∧
    (uj_industry t p).timeline = p.timeline ∧
    (uj_industry t p).organization_size = p.organization_size ∧
    (uj_industry t p).stakeholder_reality = p.stakeholder_reality ∧
    (uj_industry t p).integration_surface = p.integration_surface ∧
    (uj_industry t p).risk_posture = p.risk_posture ∧
    (uj_industry t p).boundaries = p.boundaries := by
  unfold uj_industry
  split
  · exact ⟨rfl, rfl, rfl, rfl, rfl, rfl, rfl, rfl, rfl⟩
  · split <;> exact ⟨rfl, rfl, rfl, rfl, rfl, rfl, rfl, rfl, rfl⟩

/-- `uj_use_case` writes only the `use_case_intent` entry. -/
@[simp] theorem uj_use_case_proj (hist : List ChatMessage)
    (p : IntakePacket) :
    (uj_use_case hist p).industry = p.industry ∧
    (uj_use_case hist p).opportunity_shape = p.opportunity_shape ∧
    (uj_use_case hist p).jurisdiction = p.jurisdiction ∧
    (uj_use_case hist p).timeline = p.timeline ∧
    (uj_use_case hist p).organization_size = p.organization_size ∧
    (uj_use_case hist p).stakeholder_reality = p.stakeholder_reality ∧
    (uj_use_case hist p).integration_surface = p.integration_surface ∧
    (uj_use_case hist p).risk_posture = p.risk_posture ∧
    (uj_use_case hist p).boundaries = p.boundaries := by
  unfold uj_use_case
  split
  · exact ⟨rfl, rfl, rfl, rfl, rfl, rfl, rfl, rfl, rfl⟩
  · split <;> exact ⟨rfl, rfl, rfl, rfl, rfl, rfl, rfl, rfl, rfl⟩

/-- `uj_opportunity` writes only the `opportunity_shape` entry. -/
@[simp] theorem uj_opportunity_proj (t : String) (p : IntakePacket) :
    (uj_opportunity t p).industry = p.industry ∧
    (uj_opportunity t p).use_case_intent = p.use_case_intent ∧
    (uj_opportunity t p).jurisdiction = p.jurisdiction ∧
    (uj_opportunity t p).timeline = p.timeline ∧
    (uj_opportunity t p).organization_size = p.organization_size ∧
    (uj_opportunity t p).stakeholder_reality = p.stakeholder_reality ∧
    (uj_opportunity t p).integration_surface = p.integration_surface ∧
    (uj_opportunity t p).risk_posture = p.risk_posture ∧
    (uj_opportunity t p).boundaries = p.boundaries := by
  unfold uj_opportunity
  split
  · exact ⟨rfl, rfl, rfl, rfl, rfl, rfl, rfl, rfl, rfl⟩
  · split <;> exact ⟨rfl, rfl, rfl, rfl, rfl, rfl, rfl, rfl, rfl⟩

/-- `uj_jurisdiction` writes only the `jurisdiction` entry. -/
@[simp] theorem uj_jurisdiction_proj (t : String) (p : IntakePacket) :
    (uj_jurisdiction t p).industry = p.industry ∧
    (uj_jurisdiction t p).use_case_intent = p.use_case_intent ∧
    (uj_jurisdiction t p).opportunity_shape = p.opportunity_shape ∧
    (uj_jurisdiction t p).timeline = p.timeline ∧
    (uj_jurisdiction t p).organization_size = p.organization_size ∧
    (uj_jurisdiction t p).stakeholder_reality = p.stakeholder_reality ∧
    (uj_jurisdiction t p).integration_surface = p.integration_surface ∧
    (uj_jurisdiction t p).risk_posture = p.risk_posture ∧
    (uj_jurisdiction t p).boundaries = p.boundaries := by
  unfold uj_jurisdiction
  split
  · exact ⟨rfl, rfl, rfl, rfl, rfl, rfl, rfl, rfl, rfl⟩
  · split <;> exact ⟨rfl, rfl, rfl, rfl, rfl, rfl, rfl, rfl, rfl⟩

/-- `uj_timeline` writes only the `timeline` entry. -/
@[simp] theorem uj_timeline_proj (t : String) (p : IntakePacket) :
    (uj_timeline t p).industry = p.industry ∧
    (uj_timeline t p).use_case_intent = p.use_case_intent ∧
    (uj_timeline t p).opportunity_shape = p.opportunity_shape ∧
    (uj_timeline t p).jurisdiction = p.jurisdiction ∧
    (uj_timeline t p).organization_size = p.organization_size ∧
    (uj_timeline t p).stakeholder_reality = p.stakeholder_reality ∧
    (uj_timeline t p).integration_surface = p.integration_surface ∧
    (uj_timeline t p).risk_posture = p.risk_posture ∧
    (uj_timeline t p).boundaries = p.boundaries := by
  unfold uj_timeline
  split
  · exact ⟨rfl, rfl, rfl, rfl, rfl, rfl, rfl, rfl, rfl⟩
  · split <;> exact ⟨rfl, rfl, rfl, rfl, rfl, rfl, rfl, rfl, rfl⟩

/-- `uj_org_size` writes only the `organization_size` entry. -/
@[simp] theorem uj_org_size_proj (t : String) (p : IntakePacket) :
    (uj_org_size t p).industry = p.industry ∧
    (uj_org_size t p).use_case_intent = p.use_case_intent ∧
    (uj_org_size t p).opportunity_shape = p.opportunity_shape ∧
    (uj_org_size t p).jurisdiction = p.jurisdiction ∧
    (uj_org_size t p).timeline = p.timeline ∧
    (uj_org_size t p).stakeholder_reality = p.stakeholder_reality ∧
    (uj_org_size t p).integration_surface = p.integration_surface ∧
    (uj_org_size t p).risk_posture = p.risk_posture ∧
    (uj_org_size t p).boundaries = p.boundaries := by
  unfold uj_org_size
  split
  · exact ⟨rfl, rfl, rfl, rfl, rfl, rfl, rfl, rfl, rfl⟩
  · split <;> exact ⟨rfl, rfl, rfl, rfl, rfl, rfl, rfl, rfl, rfl⟩

/-- `uj_integration` writes only the `integration_surface` entry. -/
@[simp] theorem uj_integration_proj (t : String) (p : IntakePacket) :
    (uj_integration t p).industry = p.industry ∧
    (uj_integration t p).use_case_intent = p.use_case_intent ∧
    (uj_integration t p).opportunity_shape = p.opportunity_shape ∧
    (uj_integration t p).jurisdiction = p.jurisdiction ∧
    (uj_integration t p).timeline = p.timeline ∧
    (uj_integration t p).organization_size = p.organization_size ∧
    (uj_integration t p).stakeholder_reality = p.stakeholder_reality ∧
    (uj_integration t p).risk_posture = p.risk_posture ∧
    (uj_integration t p).boundaries = p.boundaries := by
  simp only [uj_integration]
  split <;> exact ⟨rfl, rfl, rfl, rfl, rfl, rfl, rfl, rfl, rfl⟩

/-- `uj_risk` writes only the `risk_posture` entry. -/
@[simp] theorem uj_risk_proj (p : IntakePacket) :
    (uj_risk p).industry = p.industry ∧
    (uj_risk p).use_case_intent = p.use_case_intent ∧
    (uj_risk p).opportunity_shape = p.opportunity_shape ∧
    (uj_risk p).jurisdiction = p.jurisdiction ∧
    (uj_risk p).timeline = p.timeline ∧
    (uj_risk p).organization_size = p.organization_size ∧
    (uj_risk p).stakeholder_reality = p.stakeholder_reality ∧
    (uj_risk p).integration_surface = p.integration_surface ∧
    (uj_risk p).boundaries = p.boundaries := by
  unfold uj_risk
  split
  · exact ⟨rfl, rfl, rfl, rfl, rfl, rfl, rfl, rfl, rfl⟩
  · split <;> exact ⟨rfl, rfl, rfl, rfl, rfl, rfl, rfl, rfl, rfl⟩

/-- A setter skips a field that is already set. -/
theorem uj_industry_skip (t : String) (p : IntakePacket)
    (h : optTruthy p.industry.value = true) : uj_industry t p = p := by
  unfold uj_industry
  simp [h]

/-- `uj_use_case` skips a `use_case_intent` that is already set. -/
theorem uj_use_case_skip (hist : List ChatMessage) (p : IntakePacket)
    (h : optTruthy p.use_case_intent.value = true) :
    uj_use_case hist p = p := by
  unfold uj_use_case
  simp [h]

/-- `uj_opportunity` skips an `opportunity_shape` that is already set. -/
theorem uj_opportunity_skip (t : String) (p : IntakePacket)
    (h : optTruthy p.opportunity_shape.value = true) :
    uj_opportunity t p = p := by
  unfold uj_opportunity
  simp [h]

/-- `uj_jurisdiction` skips a `jurisdiction` that is already set. -/
theorem uj_jurisdiction_skip (t : String) (p : IntakePacket)
    (h : optTruthy p.jurisdiction.value = true) :
    uj_jurisdiction t p = p := by
  unfold uj_jurisdiction
  simp [h]

/-- `uj_timeline` skips a `timeline` whose bucket is already set. -/
theorem uj_timeline_skip (t : String) (p : IntakePacket)
    (h : optTruthy p.timeline.bucket = true) : uj_timeline t p = p := by
  unfold uj_timeline
  simp [h]

/-- `uj_org_size` skips an `organization_size` whose bucket is set. -/
theorem uj_org_size_skip (t : String) (p : IntakePacket)
    (h : optTruthy p.organization_size.bucket = true) :
    uj_org_size t p = p := by
  unfold uj_org_size
  simp [h]

/-- `uj_integration` skips an `integration_surface` that already holds
systems. -/
theorem uj_integration_skip (t : String) (p : IntakePacket)
    (h : p.integration_surface.systems ≠ []) : uj_integration t p = p := by
  have he : p.integration_surface.systems.isEmpty = false := by
    cases he : p.integration_surface.systems.isEmpty
    · rfl
    · exact absurd (List.isEmpty_iff.mp he) h
  simp only [uj_integration, he, Bool.and_false, if_neg, Bool.false_eq_true,
    not_false_eq_true]

/-- `uj_risk` skips a `risk_posture` whose level is already set. -/
theorem uj_risk_skip (p : IntakePacket)
    (h : optTruthy p.risk_posture.level = true) : uj_risk p = p := by
  unfold uj_risk
  simp [h]

/-- A detected industry is one of the table keys, hence nonempty. -/
theorem detect_industry_nonempty {msg k : String}
    (h : detect_industry msg = some k) : k.isEmpty = false := by
  simp only [detect_industry] at h
  cases hf : V2_INDUSTRY_KEYWORDS.find? (fun p =>
      p.2.any (fun kw => strContains (lowerStr msg) kw)) with
  | none => rw [hf] at h; exact Option.noConfusion h
  | some q =>
      rw [hf] at h
      have hqk : q.1 = k := Option.some.inj h
      have hmem := List.mem_of_find?_eq_some hf
      have hall : ∀ q ∈ V2_INDUSTRY_KEYWORDS, q.1.isEmpty = false := by
        decide
      rw [← hqk]
      exact hall q hmem

/-- Normalizing a nonempty industry string always yields a value. -/
theorem normalize_industry_some (lab : String) (h : lab ≠ "") :
    ∃ n, normalize_industry lab = some n := by
  unfold normalize_industry
  have hne : lab.isEmpty = false := by
    cases hie : lab.isEmpty
    · rfl
    · exact absurd ((String.isEmpty_iff _).mp hie) h
  rw [hne]
  simp only [Bool.false_eq_true, if_false]
  split
  · exact ⟨_, rfl⟩
  · split
    · exact ⟨_, rfl⟩
    · exact ⟨_, rfl⟩

/-! ## The frozen claims -/

/-- C1 (code bug).  With the default `hard_cap = 18` and a session of
plain messages, the hard-stop prompt is emitted by the steps registering
turns 18 and 19; on the step registering turn 20, `should_force_proceed`
holds but the state machine does NOT land on `S5_ASSUMPTIONS_CHECK`: the
forced assignment inside `chat_intake_step` is dead (it is unconditionally
overwritten by the `determine_next_state` call that follows), so the step
stays at `S1_INTENT` and asks the next intake question, contradicting the
claim and the code\x27s own `Force proceed to assumptions check`
comment. -/
theorem timebox_forced_progression_bug :
    tbN 19 = ⟨19, 0, false, true, 1⟩ ∧
    should_force_proceed (register_turn (tbN 19) false none) = true ∧
    (chat_intake_step [] init_intake_packet [] [] (tbN 17) .S1_INTENT
      (some "ok") .message none).new_state = .S1_INTENT ∧
    (chat_intake_step [] init_intake_packet [] [] (tbN 17) .S1_INTENT
      (some "ok") .message none).system_messages = [UX_HARD_STOP] ∧
    (chat_intake_step [] init_intake_packet [] [] (tbN 18) .S1_INTENT
      (some "ok") .message none).system_messages = [UX_HARD_STOP] ∧
    (chat_intake_step [] init_intake_packet [] [] (tbN 19) .S1_INTENT
      (some "ok") .message none).new_state = .S1_INTENT ∧
    (chat_intake_step [] init_intake_packet [] [] (tbN 19) .S1_INTENT
      (some "ok") .message none).new_state ≠ .S5_ASSUMPTIONS_CHECK ∧
    (chat_intake_step [] init_intake_packet [] [] (tbN 19) .S1_INTENT
      (some "ok") .message none).system_messages = [UX_S1_INTENT] := by
  decide

/-- C2 (counterexample).  A `fast_path` action at the split pre-checkpoint
state `S4_INTEGRATION` (a live state of the v2 flow, entered after the
stakeholders question) stays in place instead of jumping to the
assumptions checkpoint, as does `S4_RISK`: the fast-path list of
`determine_next_state` only names `S0_ENTRY`, `S1_INTENT`,
`S2_OPPORTUNITY`, `S3_CONTEXT` and the legacy `S4_INTEGRATION_RISK`. -/
theorem fast_path_split_state_counterexample :
    determine_next_state .S4_INTEGRATION init_intake_packet init_timebox
      .fast_path none = .S4_INTEGRATION ∧
    determine_next_state .S4_INTEGRATION init_intake_packet init_timebox
      .fast_path none ≠ .S5_ASSUMPTIONS_CHECK ∧
    determine_next_state .S4_RISK init_intake_packet init_timebox
      .fast_path none = .S4_RISK ∧
    determine_next_state .S4_RISK init_intake_packet init_timebox
      .fast_path none ≠ .S5_ASSUMPTIONS_CHECK := by
  decide

/-- C2 (amended).  For every packet and timebox, a `fast_path` action at
any of the pre-checkpoint states the transition function handles
(`S0_ENTRY`, `S1_INTENT`, `S2_OPPORTUNITY`, `S3_CONTEXT`,
`S4_INTEGRATION_RISK`) lands on `S5_ASSUMPTIONS_CHECK` in one step, and a
`fast_path` action at the checkpoint lands on `S6_RUN_STEP0`. -/
theorem fast_path_short_circuit_amended (p : IntakePacket)
    (t : TimeboxState) :
    determine_next_state .S0_ENTRY p t .fast_path none =
      .S5_ASSUMPTIONS_CHECK ∧
    determine_next_state .S1_INTENT p t .fast_path none =
      .S5_ASSUMPTIONS_CHECK ∧
    determine_next_state .S2_OPPORTUNITY p t .fast_path none =
      .S5_ASSUMPTIONS_CHECK ∧
    determine_next_state .S3_CONTEXT p t .fast_path none =
      .S5_ASSUMPTIONS_CHECK ∧
    determine_next_state .S4_INTEGRATION_RISK p t .fast_path none =
      .S5_ASSUMPTIONS_CHECK ∧
    determine_next_state .S5_ASSUMPTIONS_CHECK p t .fast_path none =
      .S6_RUN_STEP0 :=
  ⟨rfl, rfl, rfl, rfl, rfl, rfl⟩

/-- C3 (code bug).  Correcting the industry assumption from healthcare to
retail re-infers the risk posture (now `medium`, `source = inferred`), but
no assumption is ever marked `needs_revalidation`: the ripple loop in
`update_judgments` runs over a freshly-initialized empty assumption list,
and `handle_fix_assumption` returns the regenerated list, every member of
which has status `assumed`. -/
theorem dependency_ripple_revalidation_bug :
    (handle_fix_assumption "A1" "retail" pHealthcare
      healthAssumptions).1.industry =
      ⟨some "retail", .high, .user_edit, none⟩ ∧
    (handle_fix_assumption "A1" "retail" pHealthcare
      healthAssumptions).1.risk_posture =
      ⟨some "medium", none, .low, .inferred⟩ ∧
    (handle_fix_assumption "A1" "retail" pHealthcare
      healthAssumptions).2 =
      [⟨"A1", "Risk Posture is medium", .low, .med, true, .assumed⟩] ∧
    ((handle_fix_assumption "A1" "retail" pHealthcare
      healthAssumptions).2.filter
        (fun a => a.status == .needs_revalidation)) = [] := by
  decide

/-- C6 (counterexample).  `chat_intake_step` on a `start_over` action
returns the entry state but does NOT reinitialize the intake packet: the
previously inferred industry survives in the returned packet. -/
theorem start_over_counterexample :
    (chat_intake_step [] pHealthcare [] [] init_timebox .S3_CONTEXT none
      .start_over none).new_state = .S0_ENTRY ∧
    (chat_intake_step [] pHealthcare [] [] init_timebox .S3_CONTEXT none
      .start_over none).intake_packet.industry.value = some "healthcare" ∧
    (chat_intake_step [] pHealthcare [] [] init_timebox .S3_CONTEXT none
      .start_over none).intake_packet ≠ init_intake_packet := by
  decide

/-- C6 (amended).  `determine_next_state` maps a `start_over` action from
every state to the entry state, and the app-level start-over handler
reinitializes the chat history, state, intake packet, assumption list and
timebox together — its result carries no data from the prior session
(`chat_intake_step` itself performs no reset; no per-session context
handoff object exists in the session state to be reset). -/
theorem start_over_amended :
    (∀ (st : IState) (p : IntakePacket) (t : TimeboxState),
      determine_next_state st p t .start_over none = .S0_ENTRY) ∧
    (∀ s : AppSession, appStartOver s =
      { chat_history := get_initial_messages, current_state := .S0_ENTRY,
        intake_packet := init_intake_packet, assumptions := [],
        timebox := init_timebox, chat_buttons := none }) ∧
    (∀ s s' : AppSession, appStartOver s = appStartOver s') :=
  ⟨fun _ _ _ => rfl, fun _ => rfl, fun _ _ => rfl⟩

/-- C7.  For every reachable timebox state: a positive extension count
implies the hard stop was already reached; once the extension count
reaches 2, `should_force_proceed` holds (so it can never exceed 2 before
progression is forced); and each `register_turn` call increments `turns`
by exactly one, increments `extension_turns` exactly when the hard stop
was already reached before the call, and sets (never clears) the
hard-stop flag once the new turn count reaches the configured cap. -/
theorem timebox_extension_invariant (t : TimeboxState)
    (h : ReachableTB t) :
    (0 < t.extension_turns → t.hard_stop_reached = true) ∧
    (2 ≤ t.extension_turns → should_force_proceed t = true) ∧
    ∀ (hq : Bool) (cfg : Option TimeboxCfg),
      (register_turn t hq cfg).turns = t.turns + 1 ∧
      (register_turn t hq cfg).extension_turns =
        t.extension_turns + (if t.hard_stop_reached then 1 else 0) ∧
      (register_turn t hq cfg).hard_stop_reached =
        (t.hard_stop_reached || decide (hardCapOf cfg ≤ t.turns + 1)) := by
  have main : 0 < t.extension_turns → t.hard_stop_reached = true := by
    induction h with
    | init => intro h0; simp [init_timebox] at h0
    | @step t0 hq cfg _ ih =>
        intro hpos
        rw [(register_turn_eqs t0 hq cfg).2.2]
        cases hh : t0.hard_stop_reached with
        | true => simp
        | false =>
            rw [(register_turn_eqs t0 hq cfg).2.1, hh] at hpos
            simp only [if_false, Bool.false_eq_true, Nat.add_zero] at hpos
            have hcontra := ih hpos
            rw [hh] at hcontra
            exact absurd hcontra (by simp)
  refine ⟨main, ?_, fun hq cfg => register_turn_eqs t hq cfg⟩
  intro h2
  have h1 := main (lt_of_lt_of_le (by norm_num) h2)
  simp [should_force_proceed, h1, h2]

/-- C7 (witness).  After 19 plain registered turns the hard stop is
reached, and after 20 the forced-progression gate holds. -/
theorem timebox_extension_invariant_witness :
    (tbN 19).hard_stop_reached = true ∧
    should_force_proceed (tbN 20) = true :=
  ⟨(timebox_extension_invariant (tbN 19) (reachable_tbN 19)).1 (by decide),
   (timebox_extension_invariant (tbN 20) (reachable_tbN 20)).2.1
     (by decide)⟩

/-- C8 (counterexample).  When the first intent-stage block carries empty
verbatim text, the golden thread does not stay equal to that first
block\x27s text: a later intent-stage block overwrites it. -/
theorem golden_thread_counterexample :
    intentBlockEmpty.stage = "S1_INTENT" ∧
    (add_block (add_block emptyHandoff intentBlockEmpty)
      intentBlockReal).golden_thread ≠ intentBlockEmpty.user_verbatim ∧
    (add_block (add_block emptyHandoff intentBlockEmpty)
      intentBlockReal).golden_thread = "we want to forecast demand" := by
  decide

/-- C8 (amended).  The first entry/intent-stage block with NONEMPTY
verbatim text sets the golden thread to that text, and every later
sequence of handoff operations (further blocks, narrative updates, theme
additions) leaves it equal, character for character, to that text. -/
theorem golden_thread_stable (h : ContextHandoff) (b : ContextBlock)
    (ops : List HandoffOp) (hg : h.golden_thread = "")
    (hstage : b.stage = "S0_ENTRY" ∨ b.stage = "S1_INTENT")
    (hverb : b.user_verbatim ≠ "") :
    (add_block h b).golden_thread = b.user_verbatim ∧
    (ops.foldl applyOp (add_block h b)).golden_thread = b.user_verbatim := by
  have h1 : (add_block h b).golden_thread = b.user_verbatim := by
    unfold add_block
    have hcond : (b.stage == "S0_ENTRY" || b.stage == "S1_INTENT") = true := by
      rcases hstage with h' | h' <;> simp [h']
    have hempty : h.golden_thread.isEmpty = true := by
      rw [hg]; rfl
    simp only [hcond, hempty, Bool.and_self, if_pos]
    split <;> rfl
  refine ⟨h1, ?_⟩
  rw [foldl_golden_thread ops _ (by rw [h1]; exact hverb), h1]

/-- C8 (witness).  The stability theorem applied to a concrete session:
a real intent block followed by a theme addition, a narrative update and
a further (empty-verbatim) block keeps the golden thread verbatim. -/
theorem golden_thread_stable_witness :
    (add_block emptyHandoff intentBlockReal).golden_thread =
      "we want to forecast demand" ∧
    (([HandoffOp.addTheme "forecasting",
       HandoffOp.updNarrative "refined scope" "S2_OPPORTUNITY" "10:15",
       HandoffOp.addBlock intentBlockEmpty].foldl applyOp
      (add_block emptyHandoff intentBlockReal)).golden_thread =
      "we want to forecast demand") :=
  golden_thread_stable emptyHandoff intentBlockReal
    [HandoffOp.addTheme "forecasting",
     HandoffOp.updNarrative "refined scope" "S2_OPPORTUNITY" "10:15",
     HandoffOp.addBlock intentBlockEmpty] rfl (Or.inr rfl) (by decide)

/-- C9 (counterexample).  A message containing the duration `12 months`
(more than 6 months, which the claim buckets as exploratory) is bucketed
`urgent` whenever an urgent-indicator keyword is also present: the
keyword check precedes the duration parse. -/
theorem timeline_bucketing_counterexample :
    findTimeMatch (lowerStr "urgent, but realistically 12 months").data =
      some (12, TUnit.month) ∧
    detect_timeline "urgent, but realistically 12 months" =
      some "urgent" ∧
    detect_timeline "urgent, but realistically 12 months" ≠
      some "exploratory" := by
  decide

/-- C9 (amended).  The three scenario inputs bucket as claimed, and for
every message containing no urgent-indicator keyword whose first duration
match is `n` of a unit, the bucket is `urgent` when the duration is at
most one month, `near-term` when at most six months, and `exploratory`
beyond that (an urgent-indicator keyword takes precedence over any
duration). -/
theorem timeline_bucketing_amended :
    detect_timeline "next quarter" = some "near-term" ∧
    detect_timeline "this month" = some "urgent" ∧
    detect_timeline "eventually, no rush" = some "exploratory" ∧
    ∀ (text : String) (n : Nat) (u : TUnit),
      URGENT_KEYWORDS.any (fun w => strContains (lowerStr text) w) =
        false →
      findTimeMatch (lowerStr text).data = some (n, u) →
      detect_timeline text =
        some (if monthsQ n u ≤ 4 then "urgent"
              else if monthsQ n u ≤ 24 then "near-term"
              else "exploratory") := by
  refine ⟨by decide, by decide, by decide, ?_⟩
  intro text n u hkw hmatch
  simp only [detect_timeline]
  rw [hkw, hmatch]
  dsimp only
  split_ifs <;> simp_all

/-- C9 (witness).  The amended duration rule applied to `in 12 months`. -/
theorem timeline_bucketing_amended_witness :
    URGENT_KEYWORDS.any
      (fun w => strContains (lowerStr "in 12 months") w) = false ∧
    findTimeMatch (lowerStr "in 12 months").data =
      some (12, TUnit.month) ∧
    detect_timeline "in 12 months" = some "exploratory" := by
  refine ⟨by decide, by decide, ?_⟩
  have h := timeline_bucketing_amended.2.2.2 "in 12 months" 12 .month
    (by decide) (by decide)
  exact h.trans (by decide)

/-- C10.  Serialization round trip: deserializing a serialized context
handoff reconstructs it exactly, in every component. -/
theorem handoff_round_trip (h : ContextHandoff) :
    from_dict (to_dict h) = h := by
  cases h with
  | mk sid ca na bl th gt co te =>
      have hcomp : blockOfDict ∘ asdictBlock = id := funext block_round_trip
      simp [to_dict, from_dict, List.map_map, hcomp]

/-- C4 (counterexample).  The app-level merge applies extractor updates
unconditionally: when the LLM call fails at the intent state, the
keyword fallback resets `use_case_intent` to the raw message with low
confidence and source `user_direct`, overwriting a high-confidence field
— the confidence rank decreases although the source is not
`user_edit`. -/
theorem monotonic_confidence_counterexample :
    pHighIntent.use_case_intent.confidence = .high ∧
    (applyIntentUpdates pHighIntent
      (handle_intent_state none "hello there").intake_packet_updates
      ).use_case_intent.confidence = .low ∧
    (applyIntentUpdates pHighIntent
      (handle_intent_state none "hello there").intake_packet_updates
      ).use_case_intent.source ≠ .user_edit ∧
    confRank .low < confRank .high := by
  decide

/-- C4 (amended).  Restricted to the judgment store itself,
`update_judgments` (with no ripple trigger) never overwrites a field
that is already set — each extraction block fires only when its field is
unset — so a set field\x27s confidence never changes there; the
unconditional app-level merge of extractor updates is where a confidence
can drop without a `user_edit` source. -/
theorem monotonic_confidence_amended (hist : List ChatMessage)
    (p : IntakePacket) :
    (optTruthy p.industry.value = true →
      (update_judgments hist p none).1.industry = p.industry) ∧
    (optTruthy p.use_case_intent.value = true →
      (update_judgments hist p none).1.use_case_intent =
        p.use_case_intent) ∧
    (optTruthy p.opportunity_shape.value = true →
      (update_judgments hist p none).1.opportunity_shape =
        p.opportunity_shape) ∧
    (optTruthy p.jurisdiction.value = true →
      (update_judgments hist p none).1.jurisdiction = p.jurisdiction) ∧
    (optTruthy p.timeline.bucket = true →
      (update_judgments hist p none).1.timeline = p.timeline) ∧
    (optTruthy p.organization_size.bucket = true →
      (update_judgments hist p none).1.organization_size =
        p.organization_size) ∧
    (p.integration_surface.systems ≠ [] →
      (update_judgments hist p none).1.integration_surface =
        p.integration_surface) ∧
    (optTruthy p.risk_posture.level = true →
      (update_judgments hist p none).1.risk_posture = p.risk_posture) ∧
    (update_judgments hist p none).1.stakeholder_reality =
      p.stakeholder_reality ∧
    (update_judgments hist p none).1.boundaries = p.boundaries := by
  have e : (update_judgments hist p none).1 = uj_extract_chain hist p := rfl
  rw [e]
  simp only [uj_extract_chain]
  refine ⟨?_, ?_, ?_, ?_, ?_, ?_, ?_, ?_, ?_, ?_⟩
  · intro h
    rw [uj_industry_skip (historyUserText hist) p h]
    simp
  · intro h
    rw [uj_use_case_skip hist (uj_industry (historyUserText hist) p)
      (by simpa using h)]
    simp
  · intro h
    rw [uj_opportunity_skip (historyUserText hist)
      (uj_use_case hist (uj_industry (historyUserText hist) p))
      (by simpa using h)]
    simp
  · intro h
    rw [uj_jurisdiction_skip (historyUserText hist)
      (uj_opportunity (historyUserText hist) (uj_use_case hist
        (uj_industry (historyUserText hist) p)))
      (by simpa using h)]
    simp
  · intro h
    rw [uj_timeline_skip (historyUserText hist)
      (uj_jurisdiction (historyUserText hist)
        (uj_opportunity (historyUserText hist) (uj_use_case hist
          (uj_industry (historyUserText hist) p))))
      (by simpa using h)]
    simp
  · intro h
    rw [uj_org_size_skip (historyUserText hist)
      (uj_timeline (historyUserText hist) (uj_jurisdiction
        (historyUserText hist) (uj_opportunity (historyUserText hist)
          (uj_use_case hist (uj_industry (historyUserText hist) p)))))
      (by simpa using h)]
    simp
  · intro h
    rw [uj_integration_skip (historyUserText hist)
      (uj_org_size (historyUserText hist) (uj_timeline
        (historyUserText hist) (uj_jurisdiction (historyUserText hist)
          (uj_opportunity (historyUserText hist) (uj_use_case hist
            (uj_industry (historyUserText hist) p))))))
      (by simpa using h)]
    simp
  · intro h
    rw [uj_risk_skip
      (uj_integration (historyUserText hist) (uj_org_size
        (historyUserText hist) (uj_timeline (historyUserText hist)
          (uj_jurisdiction (historyUserText hist) (uj_opportunity
            (historyUserText hist) (uj_use_case hist (uj_industry
              (historyUserText hist) p)))))))
      (by simpa using h)]
    simp
  · simp
  · simp

/-- C4 (witness).  The amended preservation statement applied to a packet
with every field set. -/
theorem monotonic_confidence_amended_witness :
    (update_judgments [] pFull none).1.industry = pFull.industry ∧
    (update_judgments [] pFull none).1.use_case_intent =
      pFull.use_case_intent ∧
    (update_judgments [] pFull none).1.opportunity_shape =
      pFull.opportunity_shape ∧
    (update_judgments [] pFull none).1.jurisdiction =
      pFull.jurisdiction ∧
    (update_judgments [] pFull none).1.timeline = pFull.timeline ∧
    (update_judgments [] pFull none).1.organization_size =
      pFull.organization_size ∧
    (update_judgments [] pFull none).1.integration_surface =
      pFull.integration_surface ∧
    (update_judgments [] pFull none).1.risk_posture =
      pFull.risk_posture := by
  have h := monotonic_confidence_amended [] pFull
  exact ⟨h.1 (by decide), h.2.1 (by decide), h.2.2.1 (by decide),
    h.2.2.2.1 (by decide), h.2.2.2.2.1 (by decide),
    h.2.2.2.2.2.1 (by decide), h.2.2.2.2.2.2.1 (by decide),
    h.2.2.2.2.2.2.2.1 (by decide)⟩

/-- C5.  At the intent state, whenever the parsed LLM result carries a
(nonempty) summary and industry and does not ask for more information,
and the deterministic keyword detector finds an industry in the user
message, the industry stored by the merge is the keyword-detected one
with high confidence — whatever label the LLM returned — the use-case
intent is stored with high confidence, and the state advances to the
opportunity state. -/
theorem industry_keyword_override (ext : Extracted) (msg : String)
    (p : IntakePacket) (k s lab : String)
    (hsum : ext.summary = some s) (hs : s ≠ "")
    (hmore : ext.needs_more_info = false)
    (hind : ext.industry = some lab) (hlab : lab ≠ "")
    (hkw : detect_industry msg = some k) :
    (applyIntentUpdates p
      (handle_intent_state (some ext) msg).intake_packet_updates
      ).industry.value = some k ∧
    (applyIntentUpdates p
      (handle_intent_state (some ext) msg).intake_packet_updates
      ).industry.confidence = .high ∧
    (applyIntentUpdates p
      (handle_intent_state (some ext) msg).intake_packet_updates
      ).use_case_intent.confidence = .high ∧
    (applyIntentUpdates p
      (handle_intent_state (some ext) msg).intake_packet_updates
      ).use_case_intent.source = .llm_extracted ∧
    (handle_intent_state (some ext) msg).next_state =
      .S2_OPPORTUNITY := by
  have hsE : s.isEmpty = false := by
    cases hie : s.isEmpty
    · rfl
    · exact absurd ((String.isEmpty_iff _).mp hie) hs
  have hkE : k.isEmpty = false := detect_industry_nonempty hkw
  have hlabE : lab.isEmpty = false := by
    cases hie : lab.isEmpty
    · rfl
    · exact absurd ((String.isEmpty_iff _).mp hie) hlab
  obtain ⟨nrm, hnrm⟩ := normalize_industry_some lab hlab
  simp only [handle_intent_state, hsum, hind, hmore, hkw, hnrm, optTruthy,
    hsE, hkE, hlabE, Bool.not_false, Bool.true_and, if_true,
    Bool.false_eq_true, if_false, Option.getD_some]
  by_cases hc : k = nrm
  · subst hc
    simp [applyIntentUpdates, hkE]
  · have hbne : (some k != some nrm) = true := by
      simp only [bne_iff_ne, ne_eq, Option.some.injEq]
      exact hc
    simp [hbne, applyIntentUpdates, hkE]

/-- C5 (witness).  The banquet-hall scenario: the keyword detector finds
`hospitality`, an LLM result tagging the industry `events` still yields
`hospitality` in the merged packet, the use case is stored with high
confidence, and the state advances to the opportunity state. -/
theorem industry_keyword_override_witness :
    detect_industry banquetMsg = some "hospitality" ∧
    (applyIntentUpdates init_intake_packet
      (handle_intent_state (some extEvents) banquetMsg
        ).intake_packet_updates).industry.value = some "hospitality" ∧
    (applyIntentUpdates init_intake_packet
      (handle_intent_state (some extEvents) banquetMsg
        ).intake_packet_updates).use_case_intent.confidence = .high ∧
    (handle_intent_state (some extEvents) banquetMsg).next_state =
      .S2_OPPORTUNITY := by
  have h := industry_keyword_override extEvents banquetMsg
    init_intake_packet "hospitality"
    "Forecast catering demand for banquet halls" "events"
    rfl (by decide) rfl rfl (by decide) (by decide)
  exact ⟨by decide, h.1, h.2.2.1, h.2.2.2.2⟩

end DTC
